import Mathlib

/-!
Verification of the HTTP gateway of the vision-voice multimodal app
(`app/backend/services/flask_app.py`) and of the path handling of its
browser client (`app/frontend/gradio_app.py`).

The Flask handlers are embedded as pure Lean functions.  Randomness
(`uuid.uuid4()`) is made explicit: each handler that generates a uuid takes
its string rendering as a parameter.  The filesystem is an explicit map from
path to file size; saving a file updates the map, and the existence/size
checks read it.  The `ModelManager` delegate (`app/backend/utils/model_manager.py`,
external to the verified sources) is an abstract record of operations that
either return a value or raise an exception, modelled as `Except String`.
Every delegate invocation performed by a handler is recorded in a call trace
so that statements such as "the gateway never calls the delegate" or "the
speed actually passed to the synthesis delegate" are expressible.

Numeric speeds are modelled as rationals: Python compares and takes `max` of
floats by value, and every literal involved (`1.0`, `1.2`) is used only
through order comparisons, which the rational model reflects faithfully.
-/

namespace VisionVoice

/-! ## Python string model: `str.split()`, `str.lower()`, `werkzeug.utils.secure_filename` -/

/-- Whitespace for Python `str.split()` (the ASCII whitespace characters). -/
def pySpace (c : Char) : Bool :=
  c = ' ' || c = '\t' || c = '\n' || c = '\r' || c = '\x0b' || c = '\x0c'

/-- Characters kept by werkzeug's `_filename_ascii_strip_re`:
`[A-Za-z0-9_.-]`. -/
def allowedChar (c : Char) : Bool :=
  c.isAlpha || c.isDigit || c = '_' || c = '.' || c = '-'

/-- Model of `unicodedata.normalize("NFKD", s).encode("ascii", "ignore")`:
non-ASCII characters are dropped (ASCII characters are fixed by NFKD). -/
def asciiChar (c : Char) : Bool := c.toNat < 128

/-- `filename.replace(os.sep, " ")` on POSIX (`os.path.altsep` is `None`). -/
def sepToSpace (c : Char) : Char := if c = '/' then ' ' else c

/-- The characters removed by the final `.strip("._")`. -/
def isStripChar (c : Char) : Bool := c = '.' || c = '_'

/-- Python `str.lower()` (character-wise, which coincides with CPython on the
ASCII form values compared against `'true'`). -/
def pyLower (s : String) : String := ⟨s.data.map Char.toLower⟩

/-- `str.split()` with an explicit accumulator holding the current word
reversed: splits on whitespace runs, dropping empty pieces, like CPython. -/
def pyWordsAux : List Char → List Char → List (List Char)
  | cur, [] => if cur.isEmpty then [] else [cur.reverse]
  | cur, c :: cs =>
      if pySpace c then
        if cur.isEmpty then pyWordsAux [] cs else cur.reverse :: pyWordsAux [] cs
      else pyWordsAux (c :: cur) cs

/-- `str.split()`. -/
def pyWords (l : List Char) : List (List Char) := pyWordsAux [] l

/-- `"_".join(ws)`. -/
def joinUnd : List (List Char) → List Char
  | [] => []
  | [w] => w
  | w :: x :: ws => w ++ '_' :: joinUnd (x :: ws)

/-- `"_".join(s.split())`. -/
def pySquash (l : List Char) : List Char := joinUnd (pyWords l)

/-- What `"_".join(s.split())` contributes after a prefix that ends inside a
word: the continuation of that word, then `'_'`-joined remaining words. -/
def contSquash : List Char → List Char
  | [] => []
  | c :: cs =>
      if pySpace c then
        match pyWordsAux [] cs with
        | [] => []
        | w :: ws => '_' :: joinUnd (w :: ws)
      else c :: contSquash cs

/-- Right strip of `'.'` and `'_'`. -/
def rstripDU (l : List Char) : List Char := (l.reverse.dropWhile isStripChar).reverse

/-- `s.strip("._")`. -/
def stripDU (l : List Char) : List Char := rstripDU (l.dropWhile isStripChar)

/-- `werkzeug.utils.secure_filename` on character lists (POSIX host, so the
Windows reserved-device-name branch is dead code). -/
def secureFilename (l : List Char) : List Char :=
  stripDU (List.filter allowedChar (pySquash (List.map sepToSpace (List.filter asciiChar l))))

/-- `secure_filename` on strings. -/
def secureFilenameStr (s : String) : String := ⟨secureFilename s.data⟩

/-- The stored filename of an upload: `secure_filename(f"{uuid}_{original}")`. -/
def storedName (u original : String) : String := secureFilenameStr (u ++ "_" ++ original)

/-- Model of POSIX `os.path.join` on two components. -/
def joinPath (a b : String) : String :=
  if b.data.head? = some '/' then b
  else if a.data = [] then b
  else if a.data.getLast? = some '/' then ⟨a.data ++ b.data⟩
  else ⟨a.data ++ '/' :: b.data⟩

example : secureFilenameStr "abc.txt" = "abc.txt" := by decide
example : secureFilenameStr "my file.txt" = "my_file.txt" := by decide
example : secureFilenameStr "../../etc/passwd" = "etc_passwd" := by decide
example : secureFilenameStr "u12-ab_." = "u12-ab" := by decide
example : joinPath "app/uploads" "x.wav" = "app/uploads/x.wav" := by decide
example : joinPath "app/uploads" "/x.wav" = "/x.wav" := by decide
example : joinPath "" "x.wav" = "x.wav" := by decide

/-! ## JSON values, Python truthiness, and `float()` conversion -/

/-- A parsed JSON value, as obtained from `request.json`. -/
inductive JVal where
  | null
  | bool (b : Bool)
  | num (q : ℚ)
  | str (s : String)
  | arr (xs : List JVal)
  | obj (fields : List (String × JVal))

/-- Python truthiness of a parsed JSON value (`if x:`). -/
def pyTruthy : JVal → Bool
  | JVal.null => false
  | JVal.bool b => b
  | JVal.num q => if q = 0 then false else true
  | JVal.str s => if s = "" then false else true
  | JVal.arr xs => if xs.isEmpty then false else true
  | JVal.obj fields => if fields.isEmpty then false else true

/-- Base-10 value of a digit list. -/
def natOfDigits (l : List Char) : ℕ :=
  l.foldl (fun a c => a * 10 + (c.toNat - 48)) 0

/-- All characters are ASCII digits. -/
def allDigits (l : List Char) : Bool := l.all Char.isDigit

/-- Split at the first character satisfying `p`; `none` when absent. -/
def splitFirst (p : Char → Bool) : List Char → Option (List Char × List Char)
  | [] => none
  | c :: cs =>
    if p c then some ([], cs)
    else match splitFirst p cs with
      | none => none
      | some (a, b) => some (c :: a, b)

/-- Optional sign of a numeric literal; returns whether it is negative and
the remainder. -/
def parseSign : List Char → Bool × List Char
  | '+' :: r => (false, r)
  | '-' :: r => (true, r)
  | l => (false, l)

/-- Mantissa of a Python float literal: `digits`, `digits.digits`, `.digits`
or `digits.` (at least one digit overall); returns the digit value and the
number of fraction digits. -/
def parseMantissa (l : List Char) : Option (ℕ × ℕ) :=
  match splitFirst (fun c => c = '.') l with
  | none => if l ≠ [] ∧ allDigits l = true then some (natOfDigits l, 0) else none
  | some (ip, fp) =>
    if (ip ++ fp) ≠ [] ∧ allDigits ip = true ∧ allDigits fp = true then
      some (natOfDigits (ip ++ fp), fp.length)
    else none

/-- Assemble `± d / 10^fracLen × 10^±e` as a rational (using only `mkRat`
and natural-number arithmetic, which compute by kernel reduction). -/
def ratOfParts (neg : Bool) (d fracLen : ℕ) (expNeg : Bool) (e : ℕ) : ℚ :=
  let num : ℕ := if expNeg then d else d * 10 ^ e
  let den : ℕ := if expNeg then 10 ^ fracLen * 10 ^ e else 10 ^ fracLen
  if neg then mkRat (-(num : ℤ)) den else mkRat (num : ℤ) den

/-- Model of Python `float(s)` on a string: surrounding whitespace stripped,
optional sign, decimal mantissa, optional `e`/`E` exponent.  (The special
spellings `inf`/`nan` and digit-group underscores are outside the model;
no claim depends on them.)  `none` models the raised `ValueError`. -/
def parsePyFloat (s : String) : Option ℚ :=
  let l := ((s.data.dropWhile pySpace).reverse.dropWhile pySpace).reverse
  if l.isEmpty then none
  else
    let sl := parseSign l
    match splitFirst (fun c => c = 'e' || c = 'E') sl.2 with
    | none => (parseMantissa sl.2).map (fun m => ratOfParts sl.1 m.1 m.2 false 0)
    | some (mant, ex) =>
      let es := parseSign ex
      if es.2 ≠ [] ∧ allDigits es.2 = true then
        (parseMantissa mant).map (fun m => ratOfParts sl.1 m.1 m.2 es.1 (natOfDigits es.2))
      else none

/-- Model of Python `float(x)` on a parsed JSON value, as an exception-or-value. -/
def pyFloatOfJVal : JVal → Except String ℚ
  | JVal.num q => Except.ok q
  | JVal.bool b => Except.ok (if b then 1 else 0)
  | JVal.str s =>
    match parsePyFloat s with
    | some q => Except.ok q
    | none => Except.error ("could not convert string to float: " ++ s)
  | JVal.null => Except.error "float() argument must be a string or a real number, not NoneType"
  | JVal.arr _ => Except.error "float() argument must be a string or a real number, not list"
  | JVal.obj _ => Except.error "float() argument must be a string or a real number, not dict"

/-- Model of `float(form.get('speed', 1.0))`: form values are strings, the
default `1.0` converts to itself. -/
def pyFloatForm : Option String → Except String ℚ
  | none => Except.ok 1
  | some s =>
    match parsePyFloat s with
    | some q => Except.ok q
    | none => Except.error ("could not convert string to float: " ++ s)

example : parsePyFloat "1.2" = some (mkRat 6 5) := by decide
example : parsePyFloat "-0.5e1" = some (mkRat (-5) 1) := by decide
example : parsePyFloat "abc" = none := by decide
example : parsePyFloat "" = none := by decide
example : parsePyFloat " 2. " = some (mkRat 2 1) := by decide

/-! ## Requests, responses, the delegate, and the filesystem -/

/-- An uploaded multipart file part: its client-supplied filename and the
size of its content once saved. -/
structure FilePart where
  filename : String
  size : ℕ
deriving DecidableEq

/-- A multipart/form request: `request.files` and `request.form` as
association lists (first binding wins, like a `MultiDict`). -/
structure MultipartReq where
  files : List (String × FilePart)
  form : List (String × String)

/-- The JSON body of `/api/text_to_speech`.  `text` and `voice` are modelled
as strings (the delegate consumes strings); `speed` and `high_performance`
keep their raw JSON values, which the handler interprets. -/
structure TtsBody where
  text : Option String
  voice : Option String
  speed : Option JVal
  high_performance : Option JVal

/-- A voice descriptor from the delegate's catalog. -/
structure VoiceInfo where
  name : String
  gender : String
deriving DecidableEq

/-- A catalog entry enriched with its id (`voice_info['id'] = voice_id`). -/
structure VoiceEntry extends VoiceInfo where
  id : String
deriving DecidableEq

/-- The `ModelManager` delegate (external to the verified sources): each
operation either returns a value or raises, modelled as `Except String`. -/
structure ModelManager where
  transcribe_audio : String → Except String String
  process_image_and_query : String → String → Except String String
  text_to_speech : String → String → ℚ → Except String String
  get_available_voices : Except String (List (String × VoiceInfo))
  get_voices_by_language : Except String (List (String × List String))

/-- A recorded delegate invocation. -/
inductive DCall where
  | transcribe (audioPath : String)
  | answer (imagePath query : String)
  | tts (text voice : String) (speed : ℚ)
deriving DecidableEq

/-- A JSON response body: either a flat object of string fields, or one of
the two voice-catalog shapes. -/
inductive RespBody where
  | fields (fs : List (String × String))
  | voiceCatalog (m : List (String × VoiceInfo))
  | voiceGroups (m : List (String × List VoiceEntry))
deriving DecidableEq

/-- An HTTP response: status code and JSON body. -/
structure HttpResp where
  status : ℕ
  body : RespBody
deriving DecidableEq

/-- The filesystem: path to file size, `none` when absent. -/
def FS : Type := String → Option ℕ

/-- `file.save(path)`: the file exists at `path` with its content size. -/
def fsWrite (fs : FS) (p : String) (n : ℕ) : FS :=
  fun q => if q = p then some n else fs q

/-- Result of running a handler: the response, the delegate call trace in
order, and the filesystem after the handler's own writes. -/
structure HandlerOut where
  resp : HttpResp
  calls : List DCall
  fs : FS

/-! ## The gateway handlers (`flask_app.py`) -/

/-- The minimum speed enforced in high-performance mode: the source literal
`1.2`, written in `mkRat` form so that concrete runs compute by kernel
reduction; `highPerfFloor_eq_literal` ties it to the decimal literal. -/
def highPerfFloor : ℚ := mkRat 6 5

theorem highPerfFloor_eq_literal : highPerfFloor = 1.2 := by
  norm_num [highPerfFloor, mkRat, Rat.normalize]

/-- `request.form.get('high_performance', 'false').lower() == 'true'`
(process endpoint, line 168). -/
def procHighPerf (req : MultipartReq) : Bool :=
  pyLower ((req.form.lookup "high_performance").getD "false") == "true"

/-- `data.get('high_performance', False)` used as a condition (text-to-speech
endpoint, lines 86 and 92): Python truthiness of the JSON value. -/
def ttsHighPerf (b : TtsBody) : Bool :=
  pyTruthy (b.high_performance.getD (JVal.bool false))

/-- `if not x:` on an optional form string (`None` and `''` are falsy). -/
def pyStrTruthy : Option String → Bool
  | none => false
  | some s => if s = "" then false else true

/-- The error envelope of the `/api/process` failure boundary. -/
def procEnvelope (e : String) : RespBody :=
  RespBody.fields
    [("error", "An internal error occurred. Please try again later."), ("details", e)]

/-- Embedding of `POST /api/transcribe` (`transcribe_audio`, lines 21-49).
`u` is the string rendering of the `uuid.uuid4()` generated for the request. -/
def transcribe_audio (uploadFolder : String) (mm : ModelManager) (u : String)
    (req : MultipartReq) (fs : FS) : HandlerOut :=
  match req.files.lookup "audio" with
  | none => ⟨⟨400, RespBody.fields [("error", "No audio file provided")]⟩, [], fs⟩
  | some audio_file =>
    if audio_file.filename = "" then
      ⟨⟨400, RespBody.fields [("error", "Empty audio filename")]⟩, [], fs⟩
    else
      let audio_path := joinPath uploadFolder (storedName u audio_file.filename)
      let fs1 := fsWrite fs audio_path audio_file.size
      match mm.transcribe_audio audio_path with
      | Except.ok transcription =>
          ⟨⟨200, RespBody.fields [("transcription", transcription), ("audio_path", audio_path)]⟩,
            [DCall.transcribe audio_path], fs1⟩
      | Except.error e =>
          ⟨⟨500, RespBody.fields
              [("error", "An error occurred during transcription."), ("details", e)]⟩,
            [DCall.transcribe audio_path], fs1⟩

/-- Embedding of `POST /api/generate_response` (`generate_response`,
lines 51-76). -/
def generate_response (mm : ModelManager) (req : MultipartReq) (fs : FS) : HandlerOut :=
  if pyStrTruthy (req.form.lookup "image_path") = false then
    ⟨⟨400, RespBody.fields [("error", "No image provided")]⟩, [], fs⟩
  else if pyStrTruthy (req.form.lookup "query") = false then
    ⟨⟨400, RespBody.fields [("error", "No query provided")]⟩, [], fs⟩
  else
    match mm.process_image_and_query ((req.form.lookup "image_path").getD "")
        ((req.form.lookup "query").getD "") with
    | Except.ok response_text =>
        ⟨⟨200, RespBody.fields [("response", response_text)]⟩,
          [DCall.answer ((req.form.lookup "image_path").getD "")
            ((req.form.lookup "query").getD "")], fs⟩
    | Except.error e =>
        ⟨⟨500, RespBody.fields
            [("error", "An error occurred while generating the response."), ("details", e)]⟩,
          [DCall.answer ((req.form.lookup "image_path").getD "")
            ((req.form.lookup "query").getD "")], fs⟩

/-- Embedding of `POST /api/text_to_speech` (`text_to_speech`, lines 78-110).
The assignments of lines 83-86 run before the `if not text` check of line 88,
so `float(data.get('speed', 1.0))` raises before any 400 can be produced. -/
def text_to_speech (uploadFolder : String) (mm : ModelManager) (b : TtsBody)
    (fs : FS) : HandlerOut :=
  match pyFloatOfJVal (b.speed.getD (JVal.num 1)) with
  | Except.error e =>
      ⟨⟨500, RespBody.fields
          [("error", "An error occurred during text-to-speech conversion."), ("details", e)]⟩,
        [], fs⟩
  | Except.ok speed0 =>
    let voice := b.voice.getD "af_heart"
    match b.text with
    | none => ⟨⟨400, RespBody.fields [("error", "No text provided")]⟩, [], fs⟩
    | some text =>
      if text = "" then ⟨⟨400, RespBody.fields [("error", "No text provided")]⟩, [], fs⟩
      else
        let speed := if ttsHighPerf b then max speed0 highPerfFloor else speed0
        match mm.text_to_speech text voice speed with
        | Except.error e =>
            ⟨⟨500, RespBody.fields
                [("error", "An error occurred during text-to-speech conversion."), ("details", e)]⟩,
              [DCall.tts text voice speed], fs⟩
        | Except.ok audio_response_path =>
          match fs (joinPath uploadFolder audio_response_path) with
          | none =>
              ⟨⟨500, RespBody.fields
                  [("error", "Audio generation failed. The audio file is missing or empty.")]⟩,
                [DCall.tts text voice speed], fs⟩
          | some n =>
            if n = 0 then
              ⟨⟨500, RespBody.fields
                  [("error", "Audio generation failed. The audio file is missing or empty.")]⟩,
                [DCall.tts text voice speed], fs⟩
            else
              ⟨⟨200, RespBody.fields [("audio_response", audio_response_path)]⟩,
                [DCall.tts text voice speed], fs⟩

/-- Embedding of `GET /api/voices` (`get_voices`, lines 112-121). -/
def get_voices (mm : ModelManager) : HttpResp :=
  match mm.get_available_voices with
  | Except.ok voices => ⟨200, RespBody.voiceCatalog voices⟩
  | Except.error e =>
      ⟨500, RespBody.fields
        [("error", "An error occurred while retrieving voices."), ("details", e)]⟩

/-- The grouping loop of `get_voices_by_language` (lines 131-139): for each
language, the ids found in the catalog are enriched with their descriptor. -/
def buildVoiceGroups (byLang : List (String × List String))
    (voicesData : List (String × VoiceInfo)) : List (String × List VoiceEntry) :=
  byLang.map (fun lv =>
    (lv.1, lv.2.filterMap (fun voice_id =>
      (voicesData.lookup voice_id).map (fun info => ⟨info, voice_id⟩))))

/-- Embedding of `GET /api/voices_by_language` (`get_voices_by_language`,
lines 123-145). -/
def get_voices_by_language (mm : ModelManager) : HttpResp :=
  match mm.get_voices_by_language with
  | Except.error e =>
      ⟨500, RespBody.fields
        [("error", "An error occurred while retrieving voices by language."), ("details", e)]⟩
  | Except.ok voices_by_language =>
    match mm.get_available_voices with
    | Except.error e =>
        ⟨500, RespBody.fields
          [("error", "An error occurred while retrieving voices by language."), ("details", e)]⟩
    | Except.ok voices_data =>
        ⟨200, RespBody.voiceGroups (buildVoiceGroups voices_by_language voices_data)⟩

/-- Embedding of `POST /api/process` (`process_query`, lines 147-207).
`uImg`, `uAud` are the uuid strings generated for the two uploads.  Note the
source performs no existence/size check on the synthesized audio here. -/
def process_query (uploadFolder : String) (mm : ModelManager) (uImg uAud : String)
    (req : MultipartReq) (fs : FS) : HandlerOut :=
  match req.files.lookup "image" with
  | none => ⟨⟨400, RespBody.fields [("error", "No image file provided")]⟩, [], fs⟩
  | some image_file =>
    if image_file.filename = "" then
      ⟨⟨400, RespBody.fields [("error", "Empty image filename")]⟩, [], fs⟩
    else
      match req.files.lookup "audio" with
      | none => ⟨⟨400, RespBody.fields [("error", "No audio file provided")]⟩, [], fs⟩
      | some audio_file =>
        if audio_file.filename = "" then
          ⟨⟨400, RespBody.fields [("error", "Empty audio filename")]⟩, [], fs⟩
        else
          let voice := (req.form.lookup "voice").getD "af_heart"
          match pyFloatForm (req.form.lookup "speed") with
          | Except.error e => ⟨⟨500, procEnvelope e⟩, [], fs⟩
          | Except.ok speed0 =>
            let speed := if procHighPerf req then max speed0 highPerfFloor else speed0
            let image_path := joinPath uploadFolder (storedName uImg image_file.filename)
            let audio_path := joinPath uploadFolder (storedName uAud audio_file.filename)
            let fs1 := fsWrite (fsWrite fs image_path image_file.size) audio_path audio_file.size
            match mm.transcribe_audio audio_path with
            | Except.error e => ⟨⟨500, procEnvelope e⟩, [DCall.transcribe audio_path], fs1⟩
            | Except.ok transcription =>
              match mm.process_image_and_query image_path transcription with
              | Except.error e =>
                  ⟨⟨500, procEnvelope e⟩,
                    [DCall.transcribe audio_path, DCall.answer image_path transcription], fs1⟩
              | Except.ok response_text =>
                match mm.text_to_speech response_text voice speed with
                | Except.error e =>
                    ⟨⟨500, procEnvelope e⟩,
                      [DCall.transcribe audio_path, DCall.answer image_path transcription,
                        DCall.tts response_text voice speed], fs1⟩
                | Except.ok audio_response_path =>
                    ⟨⟨200, RespBody.fields
                        [("transcription", transcription), ("response", response_text),
                          ("audio_response", audio_response_path)]⟩,
                      [DCall.transcribe audio_path, DCall.answer image_path transcription,
                        DCall.tts response_text voice speed], fs1⟩

/-- Embedding of `GET /api/health` (lines 209-212). -/
def health_check : HttpResp := ⟨200, RespBody.fields [("status", "ok")]⟩

/-! ## The client's audio-path computation (`gradio_app.py`) -/

/-- Embedding of the client side of a synthesis response
(`generate_audio_response`, lines 179-186): the client re-joins the raw
`audio_response` value with its own configured upload folder. -/
def frontend_audio_response_path (cfgFolder : Option String)
    (audio_file : Option String) : Option String :=
  match audio_file with
  | none => none
  | some f => if f = "" then none else some (joinPath (cfgFolder.getD "app/uploads") f)

/-! ## Structure of `secure_filename` on uuid-prefixed names -/

/-- Characters that pass every stage of `secure_filename` unchanged and are
not stripped at either end.  The characters of a `uuid4` rendering
(lowercase hex digits and `'-'`) are all of this kind. -/
def sfInert (c : Char) : Bool :=
  asciiChar c && !pySpace c && !(c == '/') && allowedChar c && !isStripChar c

/-- A nonempty string of inert characters; `uuid4` strings qualify. -/
def uuidLike (u : String) : Prop := u.data ≠ [] ∧ u.data.all sfInert = true

instance (u : String) : Decidable (uuidLike u) := by
  unfold uuidLike
  infer_instance

theorem sfInert_parts {c : Char} (h : sfInert c = true) :
    asciiChar c = true ∧ pySpace c = false ∧ sepToSpace c = c ∧
      allowedChar c = true ∧ isStripChar c = false := by
  unfold sfInert at h
  simp only [Bool.and_eq_true, Bool.not_eq_true', beq_eq_false_iff_ne, ne_eq] at h
  obtain ⟨⟨⟨⟨h1, h2⟩, h3⟩, h4⟩, h5⟩ := h
  exact ⟨h1, h2, by simp [sepToSpace, h3], h4, h5⟩

theorem mapIdOn {f : Char → Char} :
    ∀ {l : List Char}, (∀ c ∈ l, f c = c) → l.map f = l := by
  intro l h
  induction l with
  | nil => rfl
  | cons c cs ih =>
    simp only [List.map_cons, h c (List.mem_cons_self c cs)]
    rw [ih (fun d hd => h d (List.mem_cons_of_mem c hd))]

theorem pyWordsAux_append_nospace :
    ∀ (p cur rest : List Char), (∀ c ∈ p, pySpace c = false) →
      pyWordsAux cur (p ++ rest) = pyWordsAux (p.reverse ++ cur) rest := by
  intro p
  induction p with
  | nil => intro cur rest _; rfl
  | cons c cs ih =>
    intro cur rest h
    have hc : pySpace c = false := h c (List.mem_cons_self c cs)
    show pyWordsAux cur (c :: (cs ++ rest)) = _
    rw [show pyWordsAux cur (c :: (cs ++ rest)) = pyWordsAux (c :: cur) (cs ++ rest) from by
      simp [pyWordsAux, hc]]
    rw [ih (c :: cur) rest (fun d hd => h d (List.mem_cons_of_mem c hd))]
    simp [List.append_assoc]

theorem joinUnd_pyWordsAux :
    ∀ (rest acc : List Char), acc ≠ [] →
      joinUnd (pyWordsAux acc rest) = acc.reverse ++ contSquash rest := by
  intro rest
  induction rest with
  | nil =>
    intro acc h
    rw [show pyWordsAux acc [] = [acc.reverse] from by
      simp [pyWordsAux, List.isEmpty_iff, h]]
    simp [joinUnd, contSquash]
  | cons c cs ih =>
    intro acc h
    by_cases hc : pySpace c = true
    · rw [show pyWordsAux acc (c :: cs) = acc.reverse :: pyWordsAux [] cs from by
        simp [pyWordsAux, hc, List.isEmpty_iff, h]]
      cases hw : pyWordsAux [] cs with
      | nil => simp [joinUnd, contSquash, hc, hw]
      | cons w ws => simp [joinUnd, contSquash, hc, hw]
    · have hc' : pySpace c = false := by simpa using hc
      rw [show pyWordsAux acc (c :: cs) = pyWordsAux (c :: acc) cs from by
        simp [pyWordsAux, hc']]
      rw [ih (c :: acc) (by simp)]
      simp [contSquash, hc', List.append_assoc]

theorem dropWhile_append_nonstrip {p : Char → Bool} {c : Char} (hc : p c = false) :
    ∀ (a b : List Char), List.dropWhile p (a ++ c :: b) = List.dropWhile p a ++ c :: b := by
  intro a
  induction a with
  | nil => intro b; simp [List.dropWhile_cons, hc]
  | cons x xs ih =>
    intro b
    by_cases hx : p x = true
    · simp [List.dropWhile_cons, hx, ih]
    · simp [List.dropWhile_cons, hx]

theorem dropWhile_append_of_ne {p : Char → Bool} :
    ∀ (a b : List Char), List.dropWhile p a ≠ [] →
      List.dropWhile p (a ++ b) = List.dropWhile p a ++ b := by
  intro a
  induction a with
  | nil => intro b h; exact absurd rfl h
  | cons x xs ih =>
    intro b h
    by_cases hx : p x = true
    · rw [List.dropWhile_cons_of_pos hx] at h ⊢
      rw [show (x :: xs) ++ b = x :: (xs ++ b) from rfl, List.dropWhile_cons_of_pos hx]
      exact ih b h
    · have hx' : ¬ p x = true := hx
      rw [show (x :: xs) ++ b = x :: (xs ++ b) from rfl, List.dropWhile_cons_of_neg hx',
        List.dropWhile_cons_of_neg hx']
      rfl

theorem rstripDU_append {u : List Char} (hne : u ≠ []) (hin : u.all sfInert = true)
    (v : List Char) : rstripDU (u ++ v) = u ++ rstripDU v := by
  unfold rstripDU
  rw [List.reverse_append]
  cases hu : u.reverse with
  | nil => exact absurd (by simpa using congrArg List.reverse hu) hne
  | cons c rest =>
    have hcmem : c ∈ u := by
      rw [← List.mem_reverse, hu]; exact List.mem_cons_self c rest
    have hc : isStripChar c = false :=
      (sfInert_parts (List.all_eq_true.mp hin c hcmem)).2.2.2.2
    rw [dropWhile_append_nonstrip hc v.reverse rest, List.reverse_append]
    rw [show (c :: rest).reverse = u from by rw [← hu, List.reverse_reverse]]

/-- What `secure_filename` appends after an inert prefix and the joining
underscore. -/
def sfTail (f : List Char) : List Char :=
  rstripDU ('_' :: List.filter allowedChar
    (contSquash (List.map sepToSpace (List.filter asciiChar f))))

/-- The sanitized remainder of the original filename inside a stored name. -/
def sfRemainder (f : List Char) : List Char :=
  rstripDU (List.filter allowedChar
    (contSquash (List.map sepToSpace (List.filter asciiChar f))))

theorem sfTail_of_remainder_ne {f : List Char} (h : sfRemainder f ≠ []) :
    sfTail f = '_' :: sfRemainder f := by
  unfold sfTail sfRemainder rstripDU at *
  rw [List.reverse_cons]
  rw [dropWhile_append_of_ne _ _ (fun hnil => h (by rw [hnil]; rfl))]
  rw [List.reverse_append]
  rfl

theorem secureFilename_inert_front (u f : List Char) (hne : u ≠ [])
    (hin : u.all sfInert = true) :
    secureFilename (u ++ '_' :: f) = u ++ sfTail f := by
  have hmem : ∀ c ∈ u, sfInert c = true := List.all_eq_true.mp hin
  have st1 : List.filter asciiChar (u ++ '_' :: f) =
      u ++ '_' :: List.filter asciiChar f := by
    rw [List.filter_append, List.filter_eq_self.mpr (fun c hc => (sfInert_parts (hmem c hc)).1),
      List.filter_cons_of_pos (by decide)]
  have st2 : List.map sepToSpace (u ++ '_' :: List.filter asciiChar f) =
      u ++ '_' :: List.map sepToSpace (List.filter asciiChar f) := by
    rw [List.map_append, mapIdOn (fun c hc => (sfInert_parts (hmem c hc)).2.2.1)]
    rfl
  have st3 : pySquash (u ++ '_' :: List.map sepToSpace (List.filter asciiChar f)) =
      u ++ '_' :: contSquash (List.map sepToSpace (List.filter asciiChar f)) := by
    unfold pySquash pyWords
    rw [pyWordsAux_append_nospace u [] _ (fun c hc => (sfInert_parts (hmem c hc)).2.1)]
    rw [show pyWordsAux (u.reverse ++ []) ('_' :: List.map sepToSpace (List.filter asciiChar f)) =
        pyWordsAux ('_' :: (u.reverse ++ [])) (List.map sepToSpace (List.filter asciiChar f)) from by
      simp [pyWordsAux, pySpace]]
    rw [joinUnd_pyWordsAux _ _ (by simp)]
    simp [List.append_assoc]
  have st4 : List.filter allowedChar
      (u ++ '_' :: contSquash (List.map sepToSpace (List.filter asciiChar f))) =
      u ++ '_' :: List.filter allowedChar
        (contSquash (List.map sepToSpace (List.filter asciiChar f))) := by
    rw [List.filter_append,
      List.filter_eq_self.mpr (fun c hc => (sfInert_parts (hmem c hc)).2.2.2.1),
      List.filter_cons_of_pos (by decide)]
  have st5 : ∀ w : List Char, stripDU (u ++ w) = u ++ rstripDU w := by
    intro w
    unfold stripDU
    have hdw : List.dropWhile isStripChar (u ++ w) = u ++ w := by
      cases hu : u with
      | nil => exact absurd hu hne
      | cons c cs =>
        have hc : isStripChar c = false :=
          (sfInert_parts (hmem c (by rw [hu]; exact List.mem_cons_self c cs))).2.2.2.2
        rw [show (c :: cs) ++ w = c :: (cs ++ w) from rfl,
          List.dropWhile_cons_of_neg (by simp [hc])]
    rw [hdw, rstripDU_append hne hin w]
  unfold secureFilename
  rw [st1, st2, st3, st4, st5]
  rfl

theorem string_data_append (a b : String) : (a ++ b).data = a.data ++ b.data := by
  cases a; cases b; rfl

theorem storedName_data (u f : String) (h : uuidLike u) :
    (storedName u f).data = u.data ++ sfTail f.data := by
  show (secureFilenameStr (u ++ "_" ++ f)).data = _
  have hd : (u ++ "_" ++ f).data = u.data ++ '_' :: f.data := by
    rw [string_data_append, string_data_append, List.append_assoc]
    rfl
  show secureFilename (u ++ "_" ++ f).data = _
  rw [hd]
  exact secureFilename_inert_front u.data f.data h.1 h.2

theorem storedName_inj {u1 u2 : String} (f : String) (h1 : uuidLike u1)
    (h2 : uuidLike u2) (hne : u1 ≠ u2) : storedName u1 f ≠ storedName u2 f := by
  intro h
  apply hne
  have hd := congrArg String.data h
  rw [storedName_data u1 f h1, storedName_data u2 f h2] at hd
  have hu := List.append_cancel_right hd
  cases u1; cases u2
  exact congrArg String.mk hu

theorem storedName_head_ne_slash (u f : String) (h : uuidLike u) :
    (storedName u f).data.head? ≠ some '/' := by
  rw [storedName_data u f h]
  obtain ⟨hne, hall⟩ := h
  cases hu : u.data with
  | nil => exact absurd hu hne
  | cons c cs =>
    have hc : sfInert c = true :=
      List.all_eq_true.mp hall c (by rw [hu]; exact List.mem_cons_self c cs)
    intro hh
    have hcc : c = '/' := by simpa using hh
    subst hcc
    unfold sfInert at hc
    simp at hc

theorem joinPath_inj {folder b1 b2 : String}
    (h1 : b1.data.head? ≠ some '/') (h2 : b2.data.head? ≠ some '/')
    (h : joinPath folder b1 = joinPath folder b2) : b1 = b2 := by
  unfold joinPath at h
  rw [if_neg h1, if_neg h2] at h
  by_cases hf : folder.data = []
  · rwa [if_pos hf, if_pos hf] at h
  · rw [if_neg hf, if_neg hf] at h
    by_cases hl : folder.data.getLast? = some '/'
    · rw [if_pos hl, if_pos hl] at h
      have hd := congrArg String.data h
      have hu := List.append_cancel_left hd
      cases b1; cases b2
      exact congrArg String.mk hu
    · rw [if_neg hl, if_neg hl] at h
      have hd := congrArg String.data h
      have hu := (List.cons.inj (List.append_cancel_left hd)).2
      cases b1; cases b2
      exact congrArg String.mk hu

/-! ## Shared handler lemmas -/

/-- In the text-to-speech handler every synthesis call carries the effective
speed: the parsed speed, floored at 1.2 exactly when the high-performance
value is truthy. -/
theorem tts_call_speed (folder : String) (mm : ModelManager) (b : TtsBody)
    (fs : FS) (q : ℚ) (hq : pyFloatOfJVal (b.speed.getD (JVal.num 1)) = Except.ok q)
    (t v : String) (s : ℚ)
    (hmem : DCall.tts t v s ∈ (text_to_speech folder mm b fs).calls) :
    s = if ttsHighPerf b then max q highPerfFloor else q := by
  unfold text_to_speech at hmem
  rw [hq] at hmem
  dsimp only at hmem
  cases hb : b.text with
  | none => rw [hb] at hmem; simp at hmem
  | some txt =>
    rw [hb] at hmem
    dsimp only at hmem
    by_cases ht : txt = ""
    · rw [if_pos ht] at hmem; simp at hmem
    · rw [if_neg ht] at hmem
      cases hmm : mm.text_to_speech txt (b.voice.getD "af_heart")
          (if ttsHighPerf b then max q highPerfFloor else q) with
      | error e =>
        rw [hmm] at hmem
        simp at hmem
        exact hmem.2.2
      | ok p =>
        rw [hmm] at hmem
        dsimp only at hmem
        cases hfs : fs (joinPath folder p) with
        | none =>
          rw [hfs] at hmem
          simp at hmem
          exact hmem.2.2
        | some n =>
          rw [hfs] at hmem
          dsimp only at hmem
          by_cases hn : n = 0
          · rw [if_pos hn] at hmem
            simp at hmem
            exact hmem.2.2
          · rw [if_neg hn] at hmem
            simp at hmem
            exact hmem.2.2

/-- In the process handler every synthesis call carries the effective speed:
the parsed speed, floored at 1.2 exactly when `high_performance` lowercases
to `'true'`. -/
theorem proc_call_speed (folder : String) (mm : ModelManager) (uI uA : String)
    (req : MultipartReq) (fs : FS) (q : ℚ)
    (hq : pyFloatForm (req.form.lookup "speed") = Except.ok q)
    (t v : String) (s : ℚ)
    (hmem : DCall.tts t v s ∈ (process_query folder mm uI uA req fs).calls) :
    s = if procHighPerf req then max q highPerfFloor else q := by
  unfold process_query at hmem
  cases hi : req.files.lookup "image" with
  | none => rw [hi] at hmem; simp at hmem
  | some imgF =>
    rw [hi] at hmem
    dsimp only at hmem
    by_cases hif : imgF.filename = ""
    · rw [if_pos hif] at hmem; simp at hmem
    · rw [if_neg hif] at hmem
      cases ha : req.files.lookup "audio" with
      | none => rw [ha] at hmem; simp at hmem
      | some audF =>
        rw [ha] at hmem
        dsimp only at hmem
        by_cases haf : audF.filename = ""
        · rw [if_pos haf] at hmem; simp at hmem
        · rw [if_neg haf] at hmem
          rw [hq] at hmem
          dsimp only at hmem
          cases htr : mm.transcribe_audio
              (joinPath folder (storedName uA audF.filename)) with
          | error e => rw [htr] at hmem; simp at hmem
          | ok tr =>
            rw [htr] at hmem
            dsimp only at hmem
            cases hpr : mm.process_image_and_query
                (joinPath folder (storedName uI imgF.filename)) tr with
            | error e => rw [hpr] at hmem; simp at hmem
            | ok rsp =>
              rw [hpr] at hmem
              dsimp only at hmem
              cases hts : mm.text_to_speech rsp ((req.form.lookup "voice").getD "af_heart")
                  (if procHighPerf req then max q highPerfFloor else q) with
              | error e =>
                rw [hts] at hmem
                simp at hmem
                exact hmem.2.2
              | ok p =>
                rw [hts] at hmem
                simp at hmem
                exact hmem.2.2

/-! ## Voice-catalog grouping -/

/-- The ids listed in a grouped response, flattened in order. -/
def groupIds (resp : List (String × List VoiceEntry)) : List String :=
  (resp.map (fun lv => lv.2.map VoiceEntry.id)).flatten

/-- The ids named by the delegate's by-language catalog, flattened. -/
def flatIds (byLang : List (String × List String)) : List String :=
  (byLang.map Prod.snd).flatten

/-- The ids of the full catalog (the `/api/voices` mapping's keys). -/
def catalogIds (vd : List (String × VoiceInfo)) : List String := vd.map Prod.fst

theorem map_id_filterMap (ids : List String) (vd : List (String × VoiceInfo)) :
    (ids.filterMap (fun voice_id => (vd.lookup voice_id).map
        (fun info => (⟨info, voice_id⟩ : VoiceEntry)))).map VoiceEntry.id =
      ids.filter (fun voice_id => (vd.lookup voice_id).isSome) := by
  induction ids with
  | nil => rfl
  | cons i is ih =>
    cases hl : vd.lookup i with
    | none => simp [List.filterMap_cons, hl, List.filter_cons, ih]
    | some info => simp [List.filterMap_cons, hl, List.filter_cons, ih]

theorem groupIds_buildVoiceGroups (byLang : List (String × List String))
    (vd : List (String × VoiceInfo)) :
    groupIds (buildVoiceGroups byLang vd) =
      (flatIds byLang).filter (fun voice_id => (vd.lookup voice_id).isSome) := by
  induction byLang with
  | nil => rfl
  | cons lv rest ih =>
    unfold groupIds buildVoiceGroups flatIds at *
    simp only [List.map_cons, List.flatten_cons, List.filter_append]
    rw [map_id_filterMap, ih]

theorem lookup_isSome_iff (vd : List (String × VoiceInfo)) (k : String) :
    (vd.lookup k).isSome = true ↔ k ∈ vd.map Prod.fst := by
  induction vd with
  | nil => simp [List.lookup]
  | cons p rest ih =>
    obtain ⟨a, b⟩ := p
    by_cases hk : k = a
    · subst hk; simp [List.lookup]
    · have : (k == a) = false := by simpa using hk
      simp [List.lookup, this, ih, hk]

/-! ## Per-branch handler lemmas -/

theorem transcribe_missing (folder : String) (mm : ModelManager) (u : String)
    (req : MultipartReq) (fs : FS) (h : req.files.lookup "audio" = none) :
    transcribe_audio folder mm u req fs =
      ⟨⟨400, RespBody.fields [("error", "No audio file provided")]⟩, [], fs⟩ := by
  unfold transcribe_audio
  rw [h]

theorem transcribe_empty (folder : String) (mm : ModelManager) (u : String)
    (req : MultipartReq) (fs : FS) (f : FilePart)
    (h : req.files.lookup "audio" = some f) (hf : f.filename = "") :
    transcribe_audio folder mm u req fs =
      ⟨⟨400, RespBody.fields [("error", "Empty audio filename")]⟩, [], fs⟩ := by
  unfold transcribe_audio
  rw [h]
  dsimp only
  rw [if_pos hf]

theorem transcribe_err (folder : String) (mm : ModelManager) (u : String)
    (req : MultipartReq) (fs : FS) (f : FilePart) (e : String)
    (h : req.files.lookup "audio" = some f) (hf : f.filename ≠ "")
    (he : mm.transcribe_audio (joinPath folder (storedName u f.filename)) = Except.error e) :
    transcribe_audio folder mm u req fs =
      ⟨⟨500, RespBody.fields [("error", "An error occurred during transcription."), ("details", e)]⟩,
        [DCall.transcribe (joinPath folder (storedName u f.filename))],
        fsWrite fs (joinPath folder (storedName u f.filename)) f.size⟩ := by
  unfold transcribe_audio
  rw [h]
  dsimp only
  rw [if_neg hf, he]

theorem transcribe_ok (folder : String) (mm : ModelManager) (u : String)
    (req : MultipartReq) (fs : FS) (f : FilePart) (t : String)
    (h : req.files.lookup "audio" = some f) (hf : f.filename ≠ "")
    (ht : mm.transcribe_audio (joinPath folder (storedName u f.filename)) = Except.ok t) :
    transcribe_audio folder mm u req fs =
      ⟨⟨200, RespBody.fields [("transcription", t),
          ("audio_path", joinPath folder (storedName u f.filename))]⟩,
        [DCall.transcribe (joinPath folder (storedName u f.filename))],
        fsWrite fs (joinPath folder (storedName u f.filename)) f.size⟩ := by
  unfold transcribe_audio
  rw [h]
  dsimp only
  rw [if_neg hf, ht]

theorem gen_missing_image (mm : ModelManager) (req : MultipartReq) (fs : FS)
    (h : pyStrTruthy (req.form.lookup "image_path") = false) :
    generate_response mm req fs =
      ⟨⟨400, RespBody.fields [("error", "No image provided")]⟩, [], fs⟩ := by
  unfold generate_response
  rw [if_pos h]

theorem gen_missing_query (mm : ModelManager) (req : MultipartReq) (fs : FS)
    (h : pyStrTruthy (req.form.lookup "image_path") ≠ false)
    (hq : pyStrTruthy (req.form.lookup "query") = false) :
    generate_response mm req fs =
      ⟨⟨400, RespBody.fields [("error", "No query provided")]⟩, [], fs⟩ := by
  unfold generate_response
  rw [if_neg h, if_pos hq]

theorem gen_err (mm : ModelManager) (req : MultipartReq) (fs : FS) (e : String)
    (h : pyStrTruthy (req.form.lookup "image_path") ≠ false)
    (hq : pyStrTruthy (req.form.lookup "query") ≠ false)
    (he : mm.process_image_and_query ((req.form.lookup "image_path").getD "")
      ((req.form.lookup "query").getD "") = Except.error e) :
    generate_response mm req fs =
      ⟨⟨500, RespBody.fields
          [("error", "An error occurred while generating the response."), ("details", e)]⟩,
        [DCall.answer ((req.form.lookup "image_path").getD "")
          ((req.form.lookup "query").getD "")], fs⟩ := by
  unfold generate_response
  rw [if_neg h, if_neg hq, he]

theorem tts_parse_err (folder : String) (mm : ModelManager) (b : TtsBody)
    (fs : FS) (e : String)
    (h : pyFloatOfJVal (b.speed.getD (JVal.num 1)) = Except.error e) :
    text_to_speech folder mm b fs =
      ⟨⟨500, RespBody.fields
          [("error", "An error occurred during text-to-speech conversion."), ("details", e)]⟩,
        [], fs⟩ := by
  unfold text_to_speech
  rw [h]

theorem tts_no_text (folder : String) (mm : ModelManager) (b : TtsBody)
    (fs : FS) (q : ℚ) (h : pyFloatOfJVal (b.speed.getD (JVal.num 1)) = Except.ok q)
    (ht : b.text = none ∨ b.text = some "") :
    text_to_speech folder mm b fs =
      ⟨⟨400, RespBody.fields [("error", "No text provided")]⟩, [], fs⟩ := by
  unfold text_to_speech
  rw [h]
  dsimp only
  rcases ht with ht | ht
  · rw [ht]
  · rw [ht]
    dsimp only
    rw [if_pos rfl]

theorem tts_delegate_err (folder : String) (mm : ModelManager) (b : TtsBody)
    (fs : FS) (q : ℚ) (txt e : String)
    (h : pyFloatOfJVal (b.speed.getD (JVal.num 1)) = Except.ok q)
    (ht : b.text = some txt) (hne : txt ≠ "")
    (he : mm.text_to_speech txt (b.voice.getD "af_heart")
      (if ttsHighPerf b then max q highPerfFloor else q) = Except.error e) :
    text_to_speech folder mm b fs =
      ⟨⟨500, RespBody.fields
          [("error", "An error occurred during text-to-speech conversion."), ("details", e)]⟩,
        [DCall.tts txt (b.voice.getD "af_heart")
          (if ttsHighPerf b then max q highPerfFloor else q)], fs⟩ := by
  unfold text_to_speech
  rw [h]
  dsimp only
  rw [ht]
  dsimp only
  rw [if_neg hne, he]

theorem tts_missing_file (folder : String) (mm : ModelManager) (b : TtsBody)
    (fs : FS) (q : ℚ) (txt p : String)
    (h : pyFloatOfJVal (b.speed.getD (JVal.num 1)) = Except.ok q)
    (ht : b.text = some txt) (hne : txt ≠ "")
    (hp : mm.text_to_speech txt (b.voice.getD "af_heart")
      (if ttsHighPerf b then max q highPerfFloor else q) = Except.ok p)
    (hfs : fs (joinPath folder p) = none ∨ fs (joinPath folder p) = some 0) :
    text_to_speech folder mm b fs =
      ⟨⟨500, RespBody.fields
          [("error", "Audio generation failed. The audio file is missing or empty.")]⟩,
        [DCall.tts txt (b.voice.getD "af_heart")
          (if ttsHighPerf b then max q highPerfFloor else q)], fs⟩ := by
  unfold text_to_speech
  rw [h]
  dsimp only
  rw [ht]
  dsimp only
  rw [if_neg hne, hp]
  dsimp only
  rcases hfs with hfs | hfs
  · rw [hfs]
  · rw [hfs]
    dsimp only
    rw [if_pos rfl]

theorem tts_success (folder : String) (mm : ModelManager) (b : TtsBody)
    (fs : FS) (q : ℚ) (txt p : String) (n : ℕ)
    (h : pyFloatOfJVal (b.speed.getD (JVal.num 1)) = Except.ok q)
    (ht : b.text = some txt) (hne : txt ≠ "")
    (hp : mm.text_to_speech txt (b.voice.getD "af_heart")
      (if ttsHighPerf b then max q highPerfFloor else q) = Except.ok p)
    (hfs : fs (joinPath folder p) = some n) (hn : n ≠ 0) :
    text_to_speech folder mm b fs =
      ⟨⟨200, RespBody.fields [("audio_response", p)]⟩,
        [DCall.tts txt (b.voice.getD "af_heart")
          (if ttsHighPerf b then max q highPerfFloor else q)], fs⟩ := by
  unfold text_to_speech
  rw [h]
  dsimp only
  rw [ht]
  dsimp only
  rw [if_neg hne, hp]
  dsimp only
  rw [hfs]
  dsimp only
  rw [if_neg hn]

theorem proc_missing_image (folder : String) (mm : ModelManager) (uI uA : String)
    (req : MultipartReq) (fs : FS) (h : req.files.lookup "image" = none) :
    process_query folder mm uI uA req fs =
      ⟨⟨400, RespBody.fields [("error", "No image file provided")]⟩, [], fs⟩ := by
  unfold process_query
  rw [h]

theorem proc_empty_image (folder : String) (mm : ModelManager) (uI uA : String)
    (req : MultipartReq) (fs : FS) (f : FilePart)
    (h : req.files.lookup "image" = some f) (hf : f.filename = "") :
    process_query folder mm uI uA req fs =
      ⟨⟨400, RespBody.fields [("error", "Empty image filename")]⟩, [], fs⟩ := by
  unfold process_query
  rw [h]
  dsimp only
  rw [if_pos hf]

theorem proc_missing_audio (folder : String) (mm : ModelManager) (uI uA : String)
    (req : MultipartReq) (fs : FS) (f : FilePart)
    (h : req.files.lookup "image" = some f) (hf : f.filename ≠ "")
    (ha : req.files.lookup "audio" = none) :
    process_query folder mm uI uA req fs =
      ⟨⟨400, RespBody.fields [("error", "No audio file provided")]⟩, [], fs⟩ := by
  unfold process_query
  rw [h]
  dsimp only
  rw [if_neg hf, ha]

theorem proc_empty_audio (folder : String) (mm : ModelManager) (uI uA : String)
    (req : MultipartReq) (fs : FS) (f g : FilePart)
    (h : req.files.lookup "image" = some f) (hf : f.filename ≠ "")
    (ha : req.files.lookup "audio" = some g) (hg : g.filename = "") :
    process_query folder mm uI uA req fs =
      ⟨⟨400, RespBody.fields [("error", "Empty audio filename")]⟩, [], fs⟩ := by
  unfold process_query
  rw [h]
  dsimp only
  rw [if_neg hf, ha]
  dsimp only
  rw [if_pos hg]

theorem proc_parse_err (folder : String) (mm : ModelManager) (uI uA : String)
    (req : MultipartReq) (fs : FS) (f g : FilePart) (e : String)
    (h : req.files.lookup "image" = some f) (hf : f.filename ≠ "")
    (ha : req.files.lookup "audio" = some g) (hg : g.filename ≠ "")
    (he : pyFloatForm (req.form.lookup "speed") = Except.error e) :
    process_query folder mm uI uA req fs = ⟨⟨500, procEnvelope e⟩, [], fs⟩ := by
  unfold process_query
  rw [h]
  dsimp only
  rw [if_neg hf, ha]
  dsimp only
  rw [if_neg hg, he]

theorem proc_stage1_err (folder : String) (mm : ModelManager) (uI uA : String)
    (req : MultipartReq) (fs : FS) (f g : FilePart) (q : ℚ) (e : String)
    (h : req.files.lookup "image" = some f) (hf : f.filename ≠ "")
    (ha : req.files.lookup "audio" = some g) (hg : g.filename ≠ "")
    (hq : pyFloatForm (req.form.lookup "speed") = Except.ok q)
    (he : mm.transcribe_audio (joinPath folder (storedName uA g.filename)) = Except.error e) :
    process_query folder mm uI uA req fs =
      ⟨⟨500, procEnvelope e⟩,
        [DCall.transcribe (joinPath folder (storedName uA g.filename))],
        fsWrite (fsWrite fs (joinPath folder (storedName uI f.filename)) f.size)
          (joinPath folder (storedName uA g.filename)) g.size⟩ := by
  unfold process_query
  rw [h]
  dsimp only
  rw [if_neg hf, ha]
  dsimp only
  rw [if_neg hg, hq]
  dsimp only
  rw [he]

theorem proc_stage2_err (folder : String) (mm : ModelManager) (uI uA : String)
    (req : MultipartReq) (fs : FS) (f g : FilePart) (q : ℚ) (t e : String)
    (h : req.files.lookup "image" = some f) (hf : f.filename ≠ "")
    (ha : req.files.lookup "audio" = some g) (hg : g.filename ≠ "")
    (hq : pyFloatForm (req.form.lookup "speed") = Except.ok q)
    (ht : mm.transcribe_audio (joinPath folder (storedName uA g.filename)) = Except.ok t)
    (he : mm.process_image_and_query (joinPath folder (storedName uI f.filename)) t =
      Except.error e) :
    process_query folder mm uI uA req fs =
      ⟨⟨500, procEnvelope e⟩,
        [DCall.transcribe (joinPath folder (storedName uA g.filename)),
         DCall.answer (joinPath folder (storedName uI f.filename)) t],
        fsWrite (fsWrite fs (joinPath folder (storedName uI f.filename)) f.size)
          (joinPath folder (storedName uA g.filename)) g.size⟩ := by
  unfold process_query
  rw [h]
  dsimp only
  rw [if_neg hf, ha]
  dsimp only
  rw [if_neg hg, hq]
  dsimp only
  rw [ht]
  dsimp only
  rw [he]

theorem proc_stage3_err (folder : String) (mm : ModelManager) (uI uA : String)
    (req : MultipartReq) (fs : FS) (f g : FilePart) (q : ℚ) (t r e : String)
    (h : req.files.lookup "image" = some f) (hf : f.filename ≠ "")
    (ha : req.files.lookup "audio" = some g) (hg : g.filename ≠ "")
    (hq : pyFloatForm (req.form.lookup "speed") = Except.ok q)
    (ht : mm.transcribe_audio (joinPath folder (storedName uA g.filename)) = Except.ok t)
    (hr : mm.process_image_and_query (joinPath folder (storedName uI f.filename)) t =
      Except.ok r)
    (he : mm.text_to_speech r ((req.form.lookup "voice").getD "af_heart")
      (if procHighPerf req then max q highPerfFloor else q) = Except.error e) :
    process_query folder mm uI uA req fs =
      ⟨⟨500, procEnvelope e⟩,
        [DCall.transcribe (joinPath folder (storedName uA g.filename)),
         DCall.answer (joinPath folder (storedName uI f.filename)) t,
         DCall.tts r ((req.form.lookup "voice").getD "af_heart")
           (if procHighPerf req then max q highPerfFloor else q)],
        fsWrite (fsWrite fs (joinPath folder (storedName uI f.filename)) f.size)
          (joinPath folder (storedName uA g.filename)) g.size⟩ := by
  unfold process_query
  rw [h]
  dsimp only
  rw [if_neg hf, ha]
  dsimp only
  rw [if_neg hg, hq]
  dsimp only
  rw [ht]
  dsimp only
  rw [hr]
  dsimp only
  rw [he]

theorem proc_success (folder : String) (mm : ModelManager) (uI uA : String)
    (req : MultipartReq) (fs : FS) (f g : FilePart) (q : ℚ) (t r p : String)
    (h : req.files.lookup "image" = some f) (hf : f.filename ≠ "")
    (ha : req.files.lookup "audio" = some g) (hg : g.filename ≠ "")
    (hq : pyFloatForm (req.form.lookup "speed") = Except.ok q)
    (ht : mm.transcribe_audio (joinPath folder (storedName uA g.filename)) = Except.ok t)
    (hr : mm.process_image_and_query (joinPath folder (storedName uI f.filename)) t =
      Except.ok r)
    (hp : mm.text_to_speech r ((req.form.lookup "voice").getD "af_heart")
      (if procHighPerf req then max q highPerfFloor else q) = Except.ok p) :
    process_query folder mm uI uA req fs =
      ⟨⟨200, RespBody.fields
          [("transcription", t), ("response", r), ("audio_response", p)]⟩,
        [DCall.transcribe (joinPath folder (storedName uA g.filename)),
         DCall.answer (joinPath folder (storedName uI f.filename)) t,
         DCall.tts r ((req.form.lookup "voice").getD "af_heart")
           (if procHighPerf req then max q highPerfFloor else q)],
        fsWrite (fsWrite fs (joinPath folder (storedName uI f.filename)) f.size)
          (joinPath folder (storedName uA g.filename)) g.size⟩ := by
  unfold process_query
  rw [h]
  dsimp only
  rw [if_neg hf, ha]
  dsimp only
  rw [if_neg hg, hq]
  dsimp only
  rw [ht]
  dsimp only
  rw [hr]
  dsimp only
  rw [hp]

/-- Inversion of a successful text-to-speech run: a 200 response with an
`audio_response` field can only arise from a parsed speed, nonempty text, a
successful synthesis call returning that very path, and a nonempty file at
the upload-folder join of that path. -/
theorem tts_success_inversion (folder : String) (mm : ModelManager) (b : TtsBody)
    (fs : FS) (p : String)
    (hst : (text_to_speech folder mm b fs).resp.status = 200)
    (hbody : (text_to_speech folder mm b fs).resp.body =
      RespBody.fields [("audio_response", p)]) :
    ∃ q txt n, pyFloatOfJVal (b.speed.getD (JVal.num 1)) = Except.ok q ∧
      b.text = some txt ∧ txt ≠ "" ∧
      mm.text_to_speech txt (b.voice.getD "af_heart")
        (if ttsHighPerf b then max q highPerfFloor else q) = Except.ok p ∧
      fs (joinPath folder p) = some n ∧ n ≠ 0 ∧
      (text_to_speech folder mm b fs).calls =
        [DCall.tts txt (b.voice.getD "af_heart")
          (if ttsHighPerf b then max q highPerfFloor else q)] := by
  cases hq : pyFloatOfJVal (b.speed.getD (JVal.num 1)) with
  | error e => rw [tts_parse_err folder mm b fs e hq] at hst; simp at hst
  | ok q =>
    cases hb : b.text with
    | none => rw [tts_no_text folder mm b fs q hq (Or.inl hb)] at hst; simp at hst
    | some txt =>
      by_cases hne : txt = ""
      · rw [tts_no_text folder mm b fs q hq (Or.inr (hne ▸ hb))] at hst; simp at hst
      · cases hmm : mm.text_to_speech txt (b.voice.getD "af_heart")
            (if ttsHighPerf b then max q highPerfFloor else q) with
        | error e =>
          rw [tts_delegate_err folder mm b fs q txt e hq hb hne hmm] at hst
          simp at hst
        | ok pp =>
          cases hfs : fs (joinPath folder pp) with
          | none =>
            rw [tts_missing_file folder mm b fs q txt pp hq hb hne hmm (Or.inl hfs)] at hst
            simp at hst
          | some n =>
            by_cases hn : n = 0
            · rw [tts_missing_file folder mm b fs q txt pp hq hb hne hmm
                (Or.inr (hn ▸ hfs))] at hst
              simp at hst
            · rw [tts_success folder mm b fs q txt pp n hq hb hne hmm hfs hn] at hbody ⊢
              have hpp : pp = p := by
                simpa using hbody
              subst hpp
              exact ⟨q, txt, n, rfl, rfl, hne, hmm, hfs, hn, rfl⟩

/-! ## Concrete inputs for witnesses and counterexamples -/

/-- An all-succeeding delegate for concrete runs. -/
def mmOk : ModelManager where
  transcribe_audio := fun _ => Except.ok "what is this"
  process_image_and_query := fun _ _ => Except.ok "a cat"
  text_to_speech := fun _ _ _ => Except.ok "out.wav"
  get_available_voices := Except.ok [("af_heart", ⟨"Heart", "Female"⟩)]
  get_voices_by_language := Except.ok [("English (African)", ["af_heart"])]

/-- A delegate whose transcription raises. -/
def mmFail1 : ModelManager :=
  { mmOk with transcribe_audio := fun _ => Except.error "boom" }

/-- The empty filesystem. -/
def fsEmpty : FS := fun _ => none

/-- A filesystem holding one nonempty synthesized file. -/
def fsOut : FS := fun p => if p = "app/uploads/out.wav" then some 5 else none

def uuidA : String := "123e4567-e89b-12d3-a456-426614174000"

def uuidB : String := "ffffffff-ffff-4fff-8fff-ffffffffffff"

/-- A well-formed multipart request for `/api/process` (no form fields). -/
def reqOk : MultipartReq := ⟨[("image", ⟨"pic.png", 3⟩), ("audio", ⟨"q.wav", 4⟩)], []⟩

/-- A well-formed process request whose `high_performance` field is `"yes"`. -/
def reqYes : MultipartReq :=
  ⟨[("image", ⟨"pic.png", 3⟩), ("audio", ⟨"q.wav", 4⟩)], [("high_performance", "yes")]⟩

/-- A high-performance tts body asking for speed 0.8. -/
def bHP : TtsBody :=
  ⟨some "hello", none, some (JVal.num (mkRat 4 5)), some (JVal.bool true)⟩

/-- A tts body with no text and an unparseable speed. -/
def bC2 : TtsBody := ⟨none, none, some (JVal.str "abc"), none⟩

/-- A tts body with text but an unparseable speed. -/
def bC10 : TtsBody := ⟨some "hi", none, some (JVal.str "abc"), none⟩

/-- A plain tts body (defaults for voice, speed, high-performance). -/
def bPlain : TtsBody := ⟨some "hello", none, none, none⟩

/-! ## The claims -/

/-- C1: for every text-to-speech or process request, the speed passed to the
synthesis delegate equals `max(requestedSpeed, 1.2)` whenever the
high-performance flag is set — a no-op for requested speeds already at or
above 1.2 — and equals the requested speed unchanged when the flag is not
set. -/
theorem C1_effective_speed :
    (∀ folder mm b fs q, pyFloatOfJVal (b.speed.getD (JVal.num 1)) = Except.ok q →
      ∀ t v s, DCall.tts t v s ∈ (text_to_speech folder mm b fs).calls →
        s = if ttsHighPerf b then max q highPerfFloor else q) ∧
    (∀ folder mm uI uA req fs q, pyFloatForm (req.form.lookup "speed") = Except.ok q →
      ∀ t v s, DCall.tts t v s ∈ (process_query folder mm uI uA req fs).calls →
        s = if procHighPerf req then max q highPerfFloor else q) :=
  ⟨tts_call_speed, proc_call_speed⟩

/-- Witness for C1: a concrete high-performance request with speed 0.8
produces a synthesis call carrying speed 1.2 = max(0.8, 1.2). -/
theorem C1_effective_speed_witness :
    DCall.tts "hello" "af_heart" (mkRat 6 5) ∈
      (text_to_speech "app/uploads" mmOk bHP fsEmpty).calls ∧
    mkRat 6 5 = (if ttsHighPerf bHP then max (mkRat 4 5) highPerfFloor else mkRat 4 5) :=
  ⟨by decide, C1_effective_speed.1 "app/uploads" mmOk bHP fsEmpty (mkRat 4 5) rfl
    "hello" "af_heart" (mkRat 6 5) (by decide)⟩

/-- C2 counterexample: a text-to-speech request that omits the required
`text` but carries an unparseable `speed` is answered 500, not 400, because
the float conversion runs before the text check (the delegate is still never
called). -/
theorem C2_counterexample :
    (text_to_speech "app/uploads" mmOk bC2 fsEmpty).resp.status = 500 ∧
    ¬ (text_to_speech "app/uploads" mmOk bC2 fsEmpty).resp.status = 400 ∧
    (text_to_speech "app/uploads" mmOk bC2 fsEmpty).calls = [] := by
  decide

/-- C2 (amended): every request missing a required file or field is answered
400 with a short message and no delegate call — except that for
text_to_speech this is guaranteed only when the optional `speed` value
converts to float; when it does not, the request fails 500 instead, still
without any delegate call. -/
theorem C2_amended_validation :
    (∀ folder mm u req fs, req.files.lookup "audio" = none →
      transcribe_audio folder mm u req fs =
        ⟨⟨400, RespBody.fields [("error", "No audio file provided")]⟩, [], fs⟩) ∧
    (∀ folder mm u req fs f, req.files.lookup "audio" = some f → f.filename = "" →
      transcribe_audio folder mm u req fs =
        ⟨⟨400, RespBody.fields [("error", "Empty audio filename")]⟩, [], fs⟩) ∧
    (∀ mm req fs, pyStrTruthy (req.form.lookup "image_path") = false →
      generate_response mm req fs =
        ⟨⟨400, RespBody.fields [("error", "No image provided")]⟩, [], fs⟩) ∧
    (∀ mm req fs, pyStrTruthy (req.form.lookup "image_path") ≠ false →
      pyStrTruthy (req.form.lookup "query") = false →
      generate_response mm req fs =
        ⟨⟨400, RespBody.fields [("error", "No query provided")]⟩, [], fs⟩) ∧
    (∀ folder mm b fs q, pyFloatOfJVal (b.speed.getD (JVal.num 1)) = Except.ok q →
      b.text = none ∨ b.text = some "" →
      text_to_speech folder mm b fs =
        ⟨⟨400, RespBody.fields [("error", "No text provided")]⟩, [], fs⟩) ∧
    (∀ folder mm b fs e, pyFloatOfJVal (b.speed.getD (JVal.num 1)) = Except.error e →
      text_to_speech folder mm b fs =
        ⟨⟨500, RespBody.fields
            [("error", "An error occurred during text-to-speech conversion."),
             ("details", e)]⟩, [], fs⟩) ∧
    (∀ folder mm uI uA req fs, req.files.lookup "image" = none →
      process_query folder mm uI uA req fs =
        ⟨⟨400, RespBody.fields [("error", "No image file provided")]⟩, [], fs⟩) ∧
    (∀ folder mm uI uA req fs f, req.files.lookup "image" = some f → f.filename = "" →
      process_query folder mm uI uA req fs =
        ⟨⟨400, RespBody.fields [("error", "Empty image filename")]⟩, [], fs⟩) ∧
    (∀ folder mm uI uA req fs f, req.files.lookup "image" = some f → f.filename ≠ "" →
      req.files.lookup "audio" = none →
      process_query folder mm uI uA req fs =
        ⟨⟨400, RespBody.fields [("error", "No audio file provided")]⟩, [], fs⟩) ∧
    (∀ folder mm uI uA req fs f g, req.files.lookup "image" = some f → f.filename ≠ "" →
      req.files.lookup "audio" = some g → g.filename = "" →
      process_query folder mm uI uA req fs =
        ⟨⟨400, RespBody.fields [("error", "Empty audio filename")]⟩, [], fs⟩) := by
  refine ⟨?_, ?_, ?_, ?_, ?_, ?_, ?_, ?_, ?_, ?_⟩
  · intro folder mm u req fs h
    exact transcribe_missing folder mm u req fs h
  · intro folder mm u req fs f h hf
    exact transcribe_empty folder mm u req fs f h hf
  · intro mm req fs h
    exact gen_missing_image mm req fs h
  · intro mm req fs h hq
    exact gen_missing_query mm req fs h hq
  · intro folder mm b fs q h ht
    exact tts_no_text folder mm b fs q h ht
  · intro folder mm b fs e h
    exact tts_parse_err folder mm b fs e h
  · intro folder mm uI uA req fs h
    exact proc_missing_image folder mm uI uA req fs h
  · intro folder mm uI uA req fs f h hf
    exact proc_empty_image folder mm uI uA req fs f h hf
  · intro folder mm uI uA req fs f h hf ha
    exact proc_missing_audio folder mm uI uA req fs f h hf ha
  · intro folder mm uI uA req fs f g h hf ha hg
    exact proc_empty_audio folder mm uI uA req fs f g h hf ha hg

/-- Witness for C2 (amended): a request with no files at all gets 400 from
the transcribe endpoint with no delegate call. -/
theorem C2_amended_validation_witness :
    transcribe_audio "app/uploads" mmOk uuidA ⟨[], []⟩ fsEmpty =
      ⟨⟨400, RespBody.fields [("error", "No audio file provided")]⟩, [], fsEmpty⟩ :=
  C2_amended_validation.1 "app/uploads" mmOk uuidA ⟨[], []⟩ fsEmpty rfl

/-- C3 counterexample: the composite process endpoint reports 200 with a
synthesized-audio path even though no file exists at the joined path at
response time — it performs no existence/size verification. -/
theorem C3_counterexample :
    (process_query "app/uploads" mmOk uuidA uuidB reqOk fsEmpty).resp.status = 200 ∧
    (process_query "app/uploads" mmOk uuidA uuidB reqOk fsEmpty).resp.body =
      RespBody.fields [("transcription", "what is this"), ("response", "a cat"),
        ("audio_response", "out.wav")] ∧
    (process_query "app/uploads" mmOk uuidA uuidB reqOk fsEmpty).fs
      (joinPath "app/uploads" "out.wav") = none := by
  decide

/-- C3 (amended): only the text_to_speech endpoint verifies the synthesis
result: its 200 responses imply the file exists with size > 0 at the joined
path, and a missing or empty file yields 500 with the synthesis-failure
message; the process endpoint returns the delegate's path unverified. -/
theorem C3_amended_tts_verification :
    (∀ folder mm b fs p, (text_to_speech folder mm b fs).resp.status = 200 →
      (text_to_speech folder mm b fs).resp.body =
        RespBody.fields [("audio_response", p)] →
      ∃ n, fs (joinPath folder p) = some n ∧ 0 < n) ∧
    (∀ folder mm b fs q txt p,
      pyFloatOfJVal (b.speed.getD (JVal.num 1)) = Except.ok q →
      b.text = some txt → txt ≠ "" →
      mm.text_to_speech txt (b.voice.getD "af_heart")
        (if ttsHighPerf b then max q highPerfFloor else q) = Except.ok p →
      fs (joinPath folder p) = none ∨ fs (joinPath folder p) = some 0 →
      (text_to_speech folder mm b fs).resp =
        ⟨500, RespBody.fields
          [("error", "Audio generation failed. The audio file is missing or empty.")]⟩) := by
  constructor
  · intro folder mm b fs p hst hbody
    obtain ⟨q, txt, n, -, -, -, -, hfs, hn, -⟩ :=
      tts_success_inversion folder mm b fs p hst hbody
    exact ⟨n, hfs, Nat.pos_of_ne_zero hn⟩
  · intro folder mm b fs q txt p hq ht hne hp hfs
    rw [tts_missing_file folder mm b fs q txt p hq ht hne hp hfs]

/-- Witness for C3 (amended): a concrete successful text-to-speech run whose
verified file exists with size 5, and the same run on an empty filesystem
yields the synthesis-failure 500. -/
theorem C3_amended_tts_verification_witness :
    (∃ n, fsOut (joinPath "app/uploads" "out.wav") = some n ∧ 0 < n) ∧
    (text_to_speech "app/uploads" mmOk bPlain fsEmpty).resp =
      ⟨500, RespBody.fields
        [("error", "Audio generation failed. The audio file is missing or empty.")]⟩ :=
  ⟨C3_amended_tts_verification.1 "app/uploads" mmOk bPlain fsOut "out.wav"
      (by decide) (by decide),
   C3_amended_tts_verification.2 "app/uploads" mmOk bPlain fsEmpty 1 "hello" "out.wav"
      rfl rfl (by decide) rfl (Or.inl rfl)⟩

/-- The delegate catalog falsifying C4: id `"b"` is in the voices catalog but
listed under no language. -/
def vdC4 : List (String × VoiceInfo) := [("a", ⟨"A", "F"⟩), ("b", ⟨"B", "M"⟩)]

def blC4 : List (String × List String) := [("en", ["a"])]

def mmC4 : ModelManager :=
  { mmOk with get_available_voices := Except.ok vdC4,
              get_voices_by_language := Except.ok blC4 }

/-- A by-language catalog covering `vdC4` exactly. -/
def blW : List (String × List String) := [("en", ["a", "b"])]

/-- C4 counterexample: for this delegate catalog the flattened
voices_by_language response does not contain the catalog id `"b"` — the
grouping endpoint drops every id the language groups fail to list, so the
two endpoints do not always expose the same id set. -/
theorem C4_counterexample :
    get_voices_by_language mmC4 =
      ⟨200, RespBody.voiceGroups (buildVoiceGroups blC4 vdC4)⟩ ∧
    "b" ∈ catalogIds vdC4 ∧
    ¬ "b" ∈ groupIds (buildVoiceGroups blC4 vdC4) := by
  decide

/-- C4 (amended): the flattened voices_by_language output equals the
by-language ids filtered to those present in the catalog; consequently it
carries exactly the catalog's id set, without duplicates, provided the
language groups list every catalog id, only catalog ids, and no id twice. -/
theorem C4_amended_grouping :
    ∀ byLang vd,
      groupIds (buildVoiceGroups byLang vd) =
        (flatIds byLang).filter (fun voice_id => (vd.lookup voice_id).isSome) ∧
      ((∀ i ∈ flatIds byLang, (vd.lookup i).isSome = true) →
       (∀ k ∈ catalogIds vd, k ∈ flatIds byLang) →
       (flatIds byLang).Nodup →
       ((∀ x, x ∈ groupIds (buildVoiceGroups byLang vd) ↔ x ∈ catalogIds vd) ∧
        (groupIds (buildVoiceGroups byLang vd)).Nodup)) := by
  intro byLang vd
  refine ⟨groupIds_buildVoiceGroups byLang vd, ?_⟩
  intro h1 h2 h3
  rw [groupIds_buildVoiceGroups byLang vd]
  constructor
  · intro x
    rw [List.mem_filter]
    constructor
    · intro ⟨hx, hs⟩
      exact (lookup_isSome_iff vd x).mp (by simpa using hs)
    · intro hx
      exact ⟨h2 x hx, by simpa using (lookup_isSome_iff vd x).mpr hx⟩
  · exact h3.filter _

/-- Witness for C4 (amended): with language groups covering the catalog
exactly, the flattened response and the catalog agree on id `"b"` and the
response has no duplicate. -/
theorem C4_amended_grouping_witness :
    ("b" ∈ groupIds (buildVoiceGroups blW vdC4) ↔ "b" ∈ catalogIds vdC4) ∧
    (groupIds (buildVoiceGroups blW vdC4)).Nodup :=
  ⟨((C4_amended_grouping blW vdC4).2 (by decide) (by decide) (by decide)).1 "b",
   ((C4_amended_grouping blW vdC4).2 (by decide) (by decide) (by decide)).2⟩

/-- Filesystem state after a process run that passed validation: exactly the
two uploads written over the initial state. -/
theorem proc_fs_after (folder : String) (mm : ModelManager) (uI uA : String)
    (req : MultipartReq) (fs : FS) (f g : FilePart) (q : ℚ)
    (h : req.files.lookup "image" = some f) (hf : f.filename ≠ "")
    (ha : req.files.lookup "audio" = some g) (hg : g.filename ≠ "")
    (hq : pyFloatForm (req.form.lookup "speed") = Except.ok q) :
    (process_query folder mm uI uA req fs).fs =
      fsWrite (fsWrite fs (joinPath folder (storedName uI f.filename)) f.size)
        (joinPath folder (storedName uA g.filename)) g.size := by
  cases ht : mm.transcribe_audio (joinPath folder (storedName uA g.filename)) with
  | error e => rw [proc_stage1_err folder mm uI uA req fs f g q e h hf ha hg hq ht]
  | ok t =>
    cases hr : mm.process_image_and_query (joinPath folder (storedName uI f.filename)) t with
    | error e => rw [proc_stage2_err folder mm uI uA req fs f g q t e h hf ha hg hq ht hr]
    | ok r =>
      cases hp : mm.text_to_speech r ((req.form.lookup "voice").getD "af_heart")
          (if procHighPerf req then max q highPerfFloor else q) with
      | error e =>
        rw [proc_stage3_err folder mm uI uA req fs f g q t r e h hf ha hg hq ht hr hp]
      | ok p =>
        rw [proc_success folder mm uI uA req fs f g q t r p h hf ha hg hq ht hr hp]

/-- C5: the process endpoint runs transcribe, then answerQuery on the stored
image and the transcription, then synthesize on the answer, in strict
sequence; a failure at any stage yields 500 carrying that exception's
message with no partial-result field, the calls stop at the failing stage,
and the files already written to the upload directory are not deleted. -/
theorem C5_process_pipeline :
    ∀ folder mm uI uA req fs f g q,
      req.files.lookup "image" = some f → f.filename ≠ "" →
      req.files.lookup "audio" = some g → g.filename ≠ "" →
      pyFloatForm (req.form.lookup "speed") = Except.ok q →
      ((∀ t r p,
          mm.transcribe_audio (joinPath folder (storedName uA g.filename)) = Except.ok t →
          mm.process_image_and_query (joinPath folder (storedName uI f.filename)) t =
            Except.ok r →
          mm.text_to_speech r ((req.form.lookup "voice").getD "af_heart")
            (if procHighPerf req then max q highPerfFloor else q) = Except.ok p →
          (process_query folder mm uI uA req fs).resp =
            ⟨200, RespBody.fields
              [("transcription", t), ("response", r), ("audio_response", p)]⟩ ∧
          (process_query folder mm uI uA req fs).calls =
            [DCall.transcribe (joinPath folder (storedName uA g.filename)),
             DCall.answer (joinPath folder (storedName uI f.filename)) t,
             DCall.tts r ((req.form.lookup "voice").getD "af_heart")
               (if procHighPerf req then max q highPerfFloor else q)]) ∧
       (∀ e,
          mm.transcribe_audio (joinPath folder (storedName uA g.filename)) =
            Except.error e →
          (process_query folder mm uI uA req fs).resp = ⟨500, procEnvelope e⟩ ∧
          (process_query folder mm uI uA req fs).calls =
            [DCall.transcribe (joinPath folder (storedName uA g.filename))]) ∧
       (∀ t e,
          mm.transcribe_audio (joinPath folder (storedName uA g.filename)) = Except.ok t →
          mm.process_image_and_query (joinPath folder (storedName uI f.filename)) t =
            Except.error e →
          (process_query folder mm uI uA req fs).resp = ⟨500, procEnvelope e⟩ ∧
          (process_query folder mm uI uA req fs).calls =
            [DCall.transcribe (joinPath folder (storedName uA g.filename)),
             DCall.answer (joinPath folder (storedName uI f.filename)) t]) ∧
       (∀ t r e,
          mm.transcribe_audio (joinPath folder (storedName uA g.filename)) = Except.ok t →
          mm.process_image_and_query (joinPath folder (storedName uI f.filename)) t =
            Except.ok r →
          mm.text_to_speech r ((req.form.lookup "voice").getD "af_heart")
            (if procHighPerf req then max q highPerfFloor else q) = Except.error e →
          (process_query folder mm uI uA req fs).resp = ⟨500, procEnvelope e⟩ ∧
          (process_query folder mm uI uA req fs).calls =
            [DCall.transcribe (joinPath folder (storedName uA g.filename)),
             DCall.answer (joinPath folder (storedName uI f.filename)) t,
             DCall.tts r ((req.form.lookup "voice").getD "af_heart")
               (if procHighPerf req then max q highPerfFloor else q)]) ∧
       ((process_query folder mm uI uA req fs).fs
          (joinPath folder (storedName uA g.filename)) = some g.size ∧
        (process_query folder mm uI uA req fs).fs
          (joinPath folder (storedName uI f.filename)) ≠ none ∧
        ∀ p2, fs p2 ≠ none → (process_query folder mm uI uA req fs).fs p2 ≠ none)) := by
  intro folder mm uI uA req fs f g q h hf ha hg hq
  refine ⟨?_, ?_, ?_, ?_, ?_⟩
  · intro t r p ht hr hp
    rw [proc_success folder mm uI uA req fs f g q t r p h hf ha hg hq ht hr hp]
    exact ⟨rfl, rfl⟩
  · intro e he
    rw [proc_stage1_err folder mm uI uA req fs f g q e h hf ha hg hq he]
    exact ⟨rfl, rfl⟩
  · intro t e ht he
    rw [proc_stage2_err folder mm uI uA req fs f g q t e h hf ha hg hq ht he]
    exact ⟨rfl, rfl⟩
  · intro t r e ht hr he
    rw [proc_stage3_err folder mm uI uA req fs f g q t r e h hf ha hg hq ht hr he]
    exact ⟨rfl, rfl⟩
  · rw [proc_fs_after folder mm uI uA req fs f g q h hf ha hg hq]
    refine ⟨by simp [fsWrite], ?_, ?_⟩
    · by_cases hpp : joinPath folder (storedName uI f.filename) =
          joinPath folder (storedName uA g.filename)
      · simp [fsWrite, hpp]
      · simp [fsWrite, hpp]
    · intro p2 hp2
      by_cases h1 : p2 = joinPath folder (storedName uA g.filename)
      · simp [fsWrite, h1]
      · by_cases h2 : p2 = joinPath folder (storedName uI f.filename)
        · simp only [fsWrite, h1, h2]
          split <;> simp
        · simpa [fsWrite, h1, h2] using hp2

/-- Witness for C5: a concrete failing transcription aborts the pipeline at
stage one with the 500 envelope carrying the exception message, and the two
uploaded files are still present afterwards. -/
theorem C5_process_pipeline_witness :
    ((process_query "app/uploads" mmFail1 uuidA uuidB reqOk fsEmpty).resp =
      ⟨500, procEnvelope "boom"⟩ ∧
     (process_query "app/uploads" mmFail1 uuidA uuidB reqOk fsEmpty).calls =
      [DCall.transcribe (joinPath "app/uploads" (storedName uuidB "q.wav"))]) ∧
    (process_query "app/uploads" mmFail1 uuidA uuidB reqOk fsEmpty).fs
      (joinPath "app/uploads" (storedName uuidB "q.wav")) = some 4 :=
  ⟨(C5_process_pipeline "app/uploads" mmFail1 uuidA uuidB reqOk fsEmpty
      ⟨"pic.png", 3⟩ ⟨"q.wav", 4⟩ 1 rfl (by decide) rfl (by decide) rfl).2.1 "boom" rfl,
   (C5_process_pipeline "app/uploads" mmFail1 uuidA uuidB reqOk fsEmpty
      ⟨"pic.png", 3⟩ ⟨"q.wav", 4⟩ 1 rfl (by decide) rfl (by decide) rfl).2.2.2.2.1⟩

/-- C6 counterexample: with original filename `"."` the stored name is the
bare uuid — `secure_filename` strips the trailing `"_."` — so the stored
name is not of the form `<uuid>_<sanitized-name>` (it is even shorter than
`<uuid>_`). -/
theorem C6_counterexample :
    storedName uuidA "." = uuidA ∧
    (storedName uuidA ".").data.length < (uuidA ++ "_").data.length := by
  decide

/-- C6 (amended): two uploads with the same original filename but distinct
generated uuids always get distinct stored paths (no overwrite); the stored
name has the form `<uuid>_<sanitized-original-name>` whenever the sanitized
remainder of the original name is nonempty — when sanitization erases the
whole name the trailing strip also removes the underscore, leaving the bare
uuid. -/
theorem C6_amended_unique_paths :
    (∀ u1 u2 f folder, uuidLike u1 → uuidLike u2 → u1 ≠ u2 →
      joinPath folder (storedName u1 f) ≠ joinPath folder (storedName u2 f)) ∧
    (∀ u f, uuidLike u → sfRemainder f.data ≠ [] →
      (storedName u f).data = u.data ++ '_' :: sfRemainder f.data) := by
  constructor
  · intro u1 u2 f folder h1 h2 hne heq
    exact storedName_inj f h1 h2 hne
      (joinPath_inj (storedName_head_ne_slash u1 f h1)
        (storedName_head_ne_slash u2 f h2) heq)
  · intro u f h hrem
    rw [storedName_data u f h, sfTail_of_remainder_ne hrem]

/-- Witness for C6 (amended): two concrete uuids with the same original
filename give distinct stored paths, and the stored name of `"pic.png"` is
the uuid, an underscore, and the sanitized name. -/
theorem C6_amended_unique_paths_witness :
    joinPath "app/uploads" (storedName uuidA "pic.png") ≠
      joinPath "app/uploads" (storedName uuidB "pic.png") ∧
    (storedName uuidA "pic.png").data =
      uuidA.data ++ '_' :: sfRemainder "pic.png".data :=
  ⟨C6_amended_unique_paths.1 uuidA uuidB "pic.png" "app/uploads"
      (by decide) (by decide) (by decide),
   C6_amended_unique_paths.2 uuidA "pic.png" (by decide) (by decide)⟩

/-- C7: on every endpoint, every exception raised in the handler body —
float conversion of a bad speed, or any delegate operation raising — is
caught at the handler boundary and turned into an HTTP 500 JSON envelope
with that endpoint's fixed user-facing message and the raw exception string
under `details`; the call trace shows the failing operation was attempted
exactly once (no retry), and the handler still returns normally. -/
theorem C7_exception_envelope :
    (∀ folder mm u req fs f e, req.files.lookup "audio" = some f → f.filename ≠ "" →
      mm.transcribe_audio (joinPath folder (storedName u f.filename)) = Except.error e →
      transcribe_audio folder mm u req fs =
        ⟨⟨500, RespBody.fields
            [("error", "An error occurred during transcription."), ("details", e)]⟩,
          [DCall.transcribe (joinPath folder (storedName u f.filename))],
          fsWrite fs (joinPath folder (storedName u f.filename)) f.size⟩) ∧
    (∀ mm req fs e, pyStrTruthy (req.form.lookup "image_path") ≠ false →
      pyStrTruthy (req.form.lookup "query") ≠ false →
      mm.process_image_and_query ((req.form.lookup "image_path").getD "")
        ((req.form.lookup "query").getD "") = Except.error e →
      generate_response mm req fs =
        ⟨⟨500, RespBody.fields
            [("error", "An error occurred while generating the response."),
             ("details", e)]⟩,
          [DCall.answer ((req.form.lookup "image_path").getD "")
            ((req.form.lookup "query").getD "")], fs⟩) ∧
    (∀ folder mm b fs e, pyFloatOfJVal (b.speed.getD (JVal.num 1)) = Except.error e →
      text_to_speech folder mm b fs =
        ⟨⟨500, RespBody.fields
            [("error", "An error occurred during text-to-speech conversion."),
             ("details", e)]⟩, [], fs⟩) ∧
    (∀ folder mm b fs q txt e,
      pyFloatOfJVal (b.speed.getD (JVal.num 1)) = Except.ok q →
      b.text = some txt → txt ≠ "" →
      mm.text_to_speech txt (b.voice.getD "af_heart")
        (if ttsHighPerf b then max q highPerfFloor else q) = Except.error e →
      text_to_speech folder mm b fs =
        ⟨⟨500, RespBody.fields
            [("error", "An error occurred during text-to-speech conversion."),
             ("details", e)]⟩,
          [DCall.tts txt (b.voice.getD "af_heart")
            (if ttsHighPerf b then max q highPerfFloor else q)], fs⟩) ∧
    (∀ mm e, mm.get_available_voices = Except.error e →
      get_voices mm =
        ⟨500, RespBody.fields
          [("error", "An error occurred while retrieving voices."), ("details", e)]⟩) ∧
    (∀ mm e, mm.get_voices_by_language = Except.error e →
      get_voices_by_language mm =
        ⟨500, RespBody.fields
          [("error", "An error occurred while retrieving voices by language."),
           ("details", e)]⟩) ∧
    (∀ mm bl e, mm.get_voices_by_language = Except.ok bl →
      mm.get_available_voices = Except.error e →
      get_voices_by_language mm =
        ⟨500, RespBody.fields
          [("error", "An error occurred while retrieving voices by language."),
           ("details", e)]⟩) ∧
    (∀ folder mm uI uA req fs f g e, req.files.lookup "image" = some f →
      f.filename ≠ "" → req.files.lookup "audio" = some g → g.filename ≠ "" →
      pyFloatForm (req.form.lookup "speed") = Except.error e →
      process_query folder mm uI uA req fs = ⟨⟨500, procEnvelope e⟩, [], fs⟩) ∧
    (∀ folder mm uI uA req fs f g q e, req.files.lookup "image" = some f →
      f.filename ≠ "" → req.files.lookup "audio" = some g → g.filename ≠ "" →
      pyFloatForm (req.form.lookup "speed") = Except.ok q →
      mm.transcribe_audio (joinPath folder (storedName uA g.filename)) = Except.error e →
      (process_query folder mm uI uA req fs).resp = ⟨500, procEnvelope e⟩ ∧
      (process_query folder mm uI uA req fs).calls =
        [DCall.transcribe (joinPath folder (storedName uA g.filename))]) ∧
    (∀ folder mm uI uA req fs f g q t e, req.files.lookup "image" = some f →
      f.filename ≠ "" → req.files.lookup "audio" = some g → g.filename ≠ "" →
      pyFloatForm (req.form.lookup "speed") = Except.ok q →
      mm.transcribe_audio (joinPath folder (storedName uA g.filename)) = Except.ok t →
      mm.process_image_and_query (joinPath folder (storedName uI f.filename)) t =
        Except.error e →
      (process_query folder mm uI uA req fs).resp = ⟨500, procEnvelope e⟩ ∧
      (process_query folder mm uI uA req fs).calls =
        [DCall.transcribe (joinPath folder (storedName uA g.filename)),
         DCall.answer (joinPath folder (storedName uI f.filename)) t]) ∧
    (∀ folder mm uI uA req fs f g q t r e, req.files.lookup "image" = some f →
      f.filename ≠ "" → req.files.lookup "audio" = some g → g.filename ≠ "" →
      pyFloatForm (req.form.lookup "speed") = Except.ok q →
      mm.transcribe_audio (joinPath folder (storedName uA g.filename)) = Except.ok t →
      mm.process_image_and_query (joinPath folder (storedName uI f.filename)) t =
        Except.ok r →
      mm.text_to_speech r ((req.form.lookup "voice").getD "af_heart")
        (if procHighPerf req then max q highPerfFloor else q) = Except.error e →
      (process_query folder mm uI uA req fs).resp = ⟨500, procEnvelope e⟩ ∧
      (process_query folder mm uI uA req fs).calls =
        [DCall.transcribe (joinPath folder (storedName uA g.filename)),
         DCall.answer (joinPath folder (storedName uI f.filename)) t,
         DCall.tts r ((req.form.lookup "voice").getD "af_heart")
           (if procHighPerf req then max q highPerfFloor else q)]) := by
  refine ⟨?_, ?_, ?_, ?_, ?_, ?_, ?_, ?_, ?_, ?_, ?_⟩
  · intro folder mm u req fs f e h hf he
    exact transcribe_err folder mm u req fs f e h hf he
  · intro mm req fs e h hq he
    exact gen_err mm req fs e h hq he
  · intro folder mm b fs e h
    exact tts_parse_err folder mm b fs e h
  · intro folder mm b fs q txt e hq ht hne he
    exact tts_delegate_err folder mm b fs q txt e hq ht hne he
  · intro mm e he
    unfold get_voices
    rw [he]
  · intro mm e he
    unfold get_voices_by_language
    rw [he]
  · intro mm bl e hbl he
    unfold get_voices_by_language
    rw [hbl]
    dsimp only
    rw [he]
  · intro folder mm uI uA req fs f g e h hf ha hg he
    exact proc_parse_err folder mm uI uA req fs f g e h hf ha hg he
  · intro folder mm uI uA req fs f g q e h hf ha hg hq he
    rw [proc_stage1_err folder mm uI uA req fs f g q e h hf ha hg hq he]
    exact ⟨rfl, rfl⟩
  · intro folder mm uI uA req fs f g q t e h hf ha hg hq ht he
    rw [proc_stage2_err folder mm uI uA req fs f g q t e h hf ha hg hq ht he]
    exact ⟨rfl, rfl⟩
  · intro folder mm uI uA req fs f g q t r e h hf ha hg hq ht hr he
    rw [proc_stage3_err folder mm uI uA req fs f g q t r e h hf ha hg hq ht hr he]
    exact ⟨rfl, rfl⟩

/-- Witness for C7: a concrete raising transcription on `/api/transcribe` is
turned into the fixed 500 envelope with the raw message under `details`,
with exactly one delegate attempt. -/
theorem C7_exception_envelope_witness :
    transcribe_audio "app/uploads" mmFail1 uuidA reqOk fsEmpty =
      ⟨⟨500, RespBody.fields
          [("error", "An error occurred during transcription."), ("details", "boom")]⟩,
        [DCall.transcribe (joinPath "app/uploads" (storedName uuidA "q.wav"))],
        fsWrite fsEmpty (joinPath "app/uploads" (storedName uuidA "q.wav")) 4⟩ :=
  C7_exception_envelope.1 "app/uploads" mmFail1 uuidA reqOk fsEmpty
    ⟨"q.wav", 4⟩ "boom" rfl (by decide) rfl

/-- C8: on a successful text_to_speech request the gateway checks the upload
directory joined with the delegate's returned path, while the client is
handed the raw unjoined value in `audio_response` and re-joins it with its
own configured upload folder to locate the file. -/
theorem C8_path_join_asymmetry :
    ∀ folder mm b fs p,
      (text_to_speech folder mm b fs).resp.status = 200 →
      (text_to_speech folder mm b fs).resp.body =
        RespBody.fields [("audio_response", p)] →
      ((∃ t v s, (text_to_speech folder mm b fs).calls = [DCall.tts t v s] ∧
          mm.text_to_speech t v s = Except.ok p) ∧
       (∃ n, fs (joinPath folder p) = some n ∧ 0 < n) ∧
       (p ≠ "" → frontend_audio_response_path (some folder) (some p) =
          some (joinPath folder p))) := by
  intro folder mm b fs p hst hbody
  obtain ⟨q, txt, n, -, -, -, hmm, hfs, hn, hcalls⟩ :=
    tts_success_inversion folder mm b fs p hst hbody
  refine ⟨⟨txt, b.voice.getD "af_heart", _, hcalls, hmm⟩,
    ⟨n, hfs, Nat.pos_of_ne_zero hn⟩, ?_⟩
  intro hp
  unfold frontend_audio_response_path
  dsimp only
  rw [if_neg hp, Option.getD_some]

/-- Witness for C8: a concrete successful run returns the raw path
`"out.wav"`, the gateway checked `"app/uploads/out.wav"`, and the client
recomputes that same joined path. -/
theorem C8_path_join_asymmetry_witness :
    (∃ t v s, (text_to_speech "app/uploads" mmOk bPlain fsOut).calls =
        [DCall.tts t v s] ∧ mmOk.text_to_speech t v s = Except.ok "out.wav") ∧
    (∃ n, fsOut (joinPath "app/uploads" "out.wav") = some n ∧ 0 < n) ∧
    ("out.wav" ≠ "" → frontend_audio_response_path (some "app/uploads")
        (some "out.wav") = some (joinPath "app/uploads" "out.wav")) :=
  C8_path_join_asymmetry "app/uploads" mmOk bPlain fsOut "out.wav"
    (by decide) (by decide)

/-- C9: the two endpoints interpret the high-performance flag differently:
process enables it exactly when the form value, lowercased, equals the
string `'true'` (so `'1'` or `'yes'` leave it disabled and the synthesis
speed unchanged), while text_to_speech enables it for any truthy JSON value
(so the JSON string `'yes'` does enable it there). -/
theorem C9_flag_interpretation :
    (∀ req s, req.form.lookup "high_performance" = some s →
      (procHighPerf req = true ↔ pyLower s = "true")) ∧
    (∀ b v, b.high_performance = some v → ttsHighPerf b = pyTruthy v) ∧
    (∀ req : MultipartReq, req.form.lookup "high_performance" = some "1" →
      procHighPerf req = false) ∧
    (∀ req : MultipartReq, req.form.lookup "high_performance" = some "yes" →
      procHighPerf req = false) ∧
    (∀ b : TtsBody, b.high_performance = some (JVal.str "1") → ttsHighPerf b = true) ∧
    (∀ folder mm uI uA req fs q t v s,
      req.form.lookup "high_performance" = some "yes" →
      pyFloatForm (req.form.lookup "speed") = Except.ok q →
      DCall.tts t v s ∈ (process_query folder mm uI uA req fs).calls → s = q) ∧
    (∀ folder mm b fs q t v s,
      b.high_performance = some (JVal.str "yes") →
      pyFloatOfJVal (b.speed.getD (JVal.num 1)) = Except.ok q →
      DCall.tts t v s ∈ (text_to_speech folder mm b fs).calls →
        s = max q highPerfFloor) := by
  refine ⟨?_, ?_, ?_, ?_, ?_, ?_, ?_⟩
  · intro req s h
    unfold procHighPerf
    rw [h, Option.getD_some]
    exact beq_iff_eq
  · intro b v h
    unfold ttsHighPerf
    rw [h, Option.getD_some]
  · intro req h
    unfold procHighPerf
    rw [h]
    decide
  · intro req h
    unfold procHighPerf
    rw [h]
    decide
  · intro b h
    unfold ttsHighPerf
    rw [h]
    decide
  · intro folder mm uI uA req fs q t v s hflag hq hmem
    have hp : procHighPerf req = false := by
      unfold procHighPerf
      rw [hflag]
      decide
    have := proc_call_speed folder mm uI uA req fs q hq t v s hmem
    rwa [hp, if_neg (by simp)] at this
  · intro folder mm b fs q t v s hflag hq hmem
    have hp : ttsHighPerf b = true := by
      unfold ttsHighPerf
      rw [hflag]
      decide
    have := tts_call_speed folder mm b fs q hq t v s hmem
    rwa [hp, if_pos rfl] at this

/-- Witness for C9: the concrete process request with
`high_performance = "yes"` really produces a synthesis call whose speed is
the unraised default 1. -/
theorem C9_flag_interpretation_witness :
    DCall.tts "a cat" "af_heart" 1 ∈
      (process_query "app/uploads" mmOk uuidA uuidB reqYes fsEmpty).calls ∧
    (1 : ℚ) = 1 :=
  ⟨by decide,
   C9_flag_interpretation.2.2.2.2.2.1 "app/uploads" mmOk uuidA uuidB reqYes fsEmpty
     1 "a cat" "af_heart" 1 rfl rfl (by decide)⟩

/-- A process request with an unparseable speed and no files at all. -/
def reqC10 : MultipartReq := ⟨[], [("speed", "abc")]⟩

/-- C10 counterexample: a process request whose speed is present but not
parseable, yet which is also missing the image file, is answered 400 — not
500 — because the file validations run before the float conversion. -/
theorem C10_counterexample :
    (process_query "app/uploads" mmOk uuidA uuidB reqC10 fsEmpty).resp.status = 400 ∧
    ¬ (process_query "app/uploads" mmOk uuidA uuidB reqC10 fsEmpty).resp.status = 500 := by
  decide

/-- C10 (amended): a request whose `speed` is present but not parseable gets
the generic 500 error-plus-details envelope and never a 400 —
unconditionally for text_to_speech (whose float conversion precedes even the
text validation), but for process only once both required files are present
with nonempty names, since its file validations run first. -/
theorem C10_amended_bad_speed :
    (∀ folder mm b fs v e, b.speed = some v → pyFloatOfJVal v = Except.error e →
      text_to_speech folder mm b fs =
        ⟨⟨500, RespBody.fields
            [("error", "An error occurred during text-to-speech conversion."),
             ("details", e)]⟩, [], fs⟩) ∧
    (∀ folder mm uI uA req fs f g s, req.files.lookup "image" = some f →
      f.filename ≠ "" → req.files.lookup "audio" = some g → g.filename ≠ "" →
      req.form.lookup "speed" = some s → parsePyFloat s = none →
      process_query folder mm uI uA req fs =
        ⟨⟨500, procEnvelope ("could not convert string to float: " ++ s)⟩, [], fs⟩) := by
  constructor
  · intro folder mm b fs v e hv he
    refine tts_parse_err folder mm b fs e ?_
    rw [hv, Option.getD_some]
    exact he
  · intro folder mm uI uA req fs f g s h hf ha hg hs hn
    refine proc_parse_err folder mm uI uA req fs f g _ h hf ha hg ?_
    unfold pyFloatForm
    rw [hs]
    dsimp only
    rw [hn]

/-- Witness for C10 (amended): a concrete text-to-speech request with text
present and `speed = "abc"` gets the 500 envelope with the conversion error
under details, and a concrete process request with both files and
`speed = "abc"` gets the generic process envelope. -/
theorem C10_amended_bad_speed_witness :
    text_to_speech "app/uploads" mmOk bC10 fsEmpty =
      ⟨⟨500, RespBody.fields
          [("error", "An error occurred during text-to-speech conversion."),
           ("details", "could not convert string to float: abc")]⟩, [], fsEmpty⟩ ∧
    process_query "app/uploads" mmOk uuidA uuidB
        ⟨reqOk.files, [("speed", "abc")]⟩ fsEmpty =
      ⟨⟨500, procEnvelope ("could not convert string to float: " ++ "abc")⟩, [],
        fsEmpty⟩ :=
  ⟨C10_amended_bad_speed.1 "app/uploads" mmOk bC10 fsEmpty (JVal.str "abc")
      "could not convert string to float: abc" rfl rfl,
   C10_amended_bad_speed.2 "app/uploads" mmOk uuidA uuidB
      ⟨reqOk.files, [("speed", "abc")]⟩ fsEmpty ⟨"pic.png", 3⟩ ⟨"q.wav", 4⟩ "abc"
      (by decide) (by decide) (by decide) (by decide) rfl (by decide)⟩

end VisionVoice
